import Mathlib

/-!
Verification of the mkosi package-manager integration layer
(`mkosi/installer/apt.py` and `mkosi/installer/zypper.py`).

The Python modules are shallowly embedded: paths are strings, the
filesystem is a partial map from paths to file contents, the sandbox /
process executor is abstract, and the one filesystem *read* performed by
`apt_cmd` (the `find_binary` lookup of `dpkg`) is modelled by an explicit
`World` parameter.  Directory creation (`mkdir`) and the scoped `umask`
manipulation have no effect on file contents and are not modelled.
-/

/-- Path join, modelling Python pathlib's `/` operator at the string level. -/
def joinPath (p q : String) : String := p ++ "/" ++ q

/-- The filesystem: a partial map from path to file content. -/
def FS := String → Option String

/-- The empty filesystem (fresh build context). -/
def fsEmpty : FS := fun _ => none

/-- Write (create or overwrite) a file. -/
def FS.write (fs : FS) (p c : String) : FS :=
  fun q => if q = p then some c else fs q

/-- Write a file only when it does not already exist; mirrors the
`if not path.exists(): path.write_text(...)` pattern of the source. -/
def writeIfAbsent (fs : FS) (p c : String) : FS :=
  if (fs p).isSome then fs else FS.write fs p c

/-- Append to a file, creating it when absent; mirrors `path.open("a")`
followed by a write. -/
def appendFile (fs : FS) (p c : String) : FS :=
  FS.write fs p (((fs p).getD "") ++ c)

/-- The parts of `context.config` read by the two installer modules.
`distribution_arch` is the result of the (out-of-scope) distro-to-debarch
mapping `context.config.distribution.architecture(context.config.architecture)`. -/
structure Config where
  distribution_arch : String
  with_recommends : Bool
  with_docs : Bool
  repository_key_check : Bool
  release : String
  tools : String

/-- The parts of the build `Context` read by the two installer modules;
each path field holds the corresponding directory's path. -/
structure Context where
  root : String
  pkgmngr : String
  cache_dir : String
  workspace : String
  packages : String
  config : Config

/-- The filesystem state consulted by `find_binary`: `findBinary name root`
is the resolved path of binary `name` under tools root `root`.  `apt_cmd`
performs exactly one such lookup (`find_binary("dpkg", root=context.config.tools())`);
`zypper_cmd` performs none. -/
structure World where
  findBinary : String → String → String

/-- Python `str(b).lower()` on a bool. -/
def pyBoolLower (b : Bool) : String := if b then "true" else "false"

/-- Modelled from the spec: `yes_no` from `mkosi.config` (not under `src/`),
"a tuning block disabling documentation installation per configuration" -
the standard yes/no rendering of a boolean. -/
def yes_no (b : Bool) : String := if b then "yes" else "no"

/-- The unconditional part of the `apt` command line (`apt.py` lines 52-82). -/
def aptBase (w : World) (context : Context) (command : String) : List String :=
  ["env",
   "APT_CONFIG=" ++ joinPath context.workspace "apt.conf",
   "DEBIAN_FRONTEND=noninteractive",
   "DEBCONF_INTERACTIVE_SEEN=true",
   "INITRD=No",
   command,
   "-o", "APT::Architecture=" ++ context.config.distribution_arch,
   "-o", "APT::Architectures=" ++ context.config.distribution_arch,
   "-o", "APT::Install-Recommends=" ++ pyBoolLower context.config.with_recommends,
   "-o", "APT::Immediate-Configure=off",
   "-o", "APT::Get::Assume-Yes=true",
   "-o", "APT::Get::AutomaticRemove=true",
   "-o", "APT::Get::Allow-Change-Held-Packages=true",
   "-o", "APT::Get::Allow-Remove-Essential=true",
   "-o", "APT::Sandbox::User=root",
   "-o", "Dir::Cache=/var/cache/apt",
   "-o", "Dir::State=/var/lib/apt",
   "-o", "Dir::State::Status=" ++ joinPath context.root "var/lib/dpkg/status",
   "-o", "Dir::Log=" ++ context.workspace,
   "-o", "Dir::Bin::DPkg=" ++ w.findBinary "dpkg" context.config.tools,
   "-o", "Debug::NoLocking=true",
   "-o", "DPkg::Options::=--root=" ++ context.root,
   "-o", "DPkg::Options::=--force-unsafe-io",
   "-o", "DPkg::Options::=--force-architecture",
   "-o", "DPkg::Options::=--force-depends",
   "-o", "DPkg::Options::=--no-debsig",
   "-o", "DPkg::Use-Pty=false",
   "-o", "DPkg::Install::Recursive::Minimum=1000",
   "-o", "pkgCacheGen::ForceEssential=,"]

/-- The three options allowing insecure repositories (`apt.py` lines 86-88). -/
def aptInsecureFlags : List String :=
  ["Acquire::AllowInsecureRepositories=true",
   "Acquire::AllowDowngradeToInsecureRepositories=true",
   "APT::Get::AllowUnauthenticated=true"]

/-- The block appended when `repository_key_check` is off (`apt.py` lines 85-89). -/
def aptInsecureBlock : List String :=
  ["-o", "Acquire::AllowInsecureRepositories=true",
   "-o", "Acquire::AllowDowngradeToInsecureRepositories=true",
   "-o", "APT::Get::AllowUnauthenticated=true"]

/-- The five dpkg path options stripping documentation (`apt.py` lines 93-97). -/
def aptDocFlags : List String :=
  ["DPkg::Options::=--path-exclude=/usr/share/doc/*",
   "DPkg::Options::=--path-include=/usr/share/doc/*/copyright",
   "DPkg::Options::=--path-exclude=/usr/share/man/*",
   "DPkg::Options::=--path-exclude=/usr/share/groff/*",
   "DPkg::Options::=--path-exclude=/usr/share/info/*"]

/-- The block appended when `with_docs` is off (`apt.py` lines 92-98). -/
def aptDocBlock : List String :=
  ["-o", "DPkg::Options::=--path-exclude=/usr/share/doc/*",
   "-o", "DPkg::Options::=--path-include=/usr/share/doc/*/copyright",
   "-o", "DPkg::Options::=--path-exclude=/usr/share/man/*",
   "-o", "DPkg::Options::=--path-exclude=/usr/share/groff/*",
   "-o", "DPkg::Options::=--path-exclude=/usr/share/info/*"]

/-- `apt_cmd(context, command)` from `apt.py` lines 49-100: the base vector,
then the insecure-repository block when key checking is disabled, then the
documentation-stripping block when docs are disabled. -/
def apt_cmd (w : World) (context : Context) (command : String) : List String :=
  aptBase w context command
    ++ (if context.config.repository_key_check then [] else aptInsecureBlock)
    ++ (if context.config.with_docs then [] else aptDocBlock)

/-- `zypper_cmd(context)` from `zypper.py` lines 62-72.  It reads no
filesystem state, so the `World` parameter is unused. -/
def zypper_cmd (_w : World) (context : Context) : List String :=
  ["env",
   "ZYPP_CONF=/etc/zypp/zypp.conf",
   "HOME=/",
   "zypper",
   "--installroot=" ++ context.root,
   "--cache-dir=/var/cache/zypp",
   (if context.config.repository_key_check then "--gpg-auto-import-keys"
    else "--no-gpg-checks"),
   "--non-interactive"]

/-- A concrete build context used for witnesses and counterexamples. -/
def ctxDemo : Context :=
  { root := "/buildroot"
    pkgmngr := "/pkgmngr"
    cache_dir := "/cachedir"
    workspace := "/workdir"
    packages := "/packagesdir"
    config :=
      { distribution_arch := "amd64"
        with_recommends := true
        with_docs := false
        repository_key_check := true
        release := "bookworm"
        tools := "/" } }

/-- A filesystem in which `dpkg` resolves to `/usr/bin/dpkg`. -/
def worldDemo1 : World := ⟨fun _ _ => "/usr/bin/dpkg"⟩

/-- A filesystem in which `dpkg` resolves to `/opt/bin/dpkg`. -/
def worldDemo2 : World := ⟨fun _ _ => "/opt/bin/dpkg"⟩

example : zypper_cmd worldDemo1 ctxDemo =
    ["env", "ZYPP_CONF=/etc/zypp/zypp.conf", "HOME=/", "zypper",
     "--installroot=/buildroot", "--cache-dir=/var/cache/zypp",
     "--gpg-auto-import-keys", "--non-interactive"] := by decide

/-- If the data of `u` does not begin with the data of `c`, then no string
with literal head `c` equals `u`. -/
lemma append_ne_of_take_ne (c u : String) (h : u.data.take c.data.length ≠ c.data)
    (x : String) : c ++ x ≠ u := by
  intro he
  apply h
  rw [← he, String.data_append]
  exact List.take_left _ _

/-- String append is left-cancellative, stated for unequal tails. -/
lemma append_left_ne (p a b : String) (h : a.data ≠ b.data) : p ++ a ≠ p ++ b := by
  intro he
  apply h
  have hd := congrArg String.data he
  rw [String.data_append, String.data_append] at hd
  exact List.append_cancel_left hd

/-- The literal heads of the interpolated elements of `aptBase`. -/
def aptInterpHeads : List String :=
  ["APT_CONFIG=", "APT::Architecture=", "APT::Architectures=", "APT::Install-Recommends=",
   "Dir::State::Status=", "Dir::Log=", "Dir::Bin::DPkg=", "DPkg::Options::=--root="]

/-- The constant elements of `aptBase`. -/
def aptBaseConst : List String :=
  ["env", "DEBIAN_FRONTEND=noninteractive", "DEBCONF_INTERACTIVE_SEEN=true", "INITRD=No", "-o",
   "APT::Immediate-Configure=off", "APT::Get::Assume-Yes=true", "APT::Get::AutomaticRemove=true",
   "APT::Get::Allow-Change-Held-Packages=true", "APT::Get::Allow-Remove-Essential=true",
   "APT::Sandbox::User=root", "Dir::Cache=/var/cache/apt", "Dir::State=/var/lib/apt",
   "Debug::NoLocking=true", "DPkg::Options::=--force-unsafe-io",
   "DPkg::Options::=--force-architecture", "DPkg::Options::=--force-depends",
   "DPkg::Options::=--no-debsig", "DPkg::Use-Pty=false",
   "DPkg::Install::Recursive::Minimum=1000", "pkgCacheGen::ForceEssential=,"]

/-- Every element of `aptBase` is the tool name, an interpolated element with
one of the literal heads, or one of the constant elements. -/
lemma aptBase_mem_cases (w : World) (context : Context) (command : String) :
    ∀ x ∈ aptBase w context command,
      x = command ∨ (∃ c ∈ aptInterpHeads, ∃ t, x = c ++ t) ∨ x ∈ aptBaseConst := by
  intro x hx
  simp only [aptBase, List.mem_cons, List.not_mem_nil, or_false] at hx
  rcases hx with rfl | rfl | rfl | rfl | rfl | rfl | rfl | rfl | rfl | rfl | rfl | rfl | rfl |
    rfl | rfl | rfl | rfl | rfl | rfl | rfl | rfl | rfl | rfl | rfl | rfl | rfl | rfl | rfl |
    rfl | rfl | rfl | rfl | rfl | rfl | rfl | rfl | rfl | rfl | rfl | rfl | rfl | rfl | rfl |
    rfl | rfl | rfl | rfl | rfl | rfl | rfl | rfl | rfl
  all_goals first
    | exact Or.inl rfl
    | exact Or.inr (Or.inr (by decide))
    | exact Or.inr (Or.inl ⟨"APT_CONFIG=", by decide, _, rfl⟩)
    | exact Or.inr (Or.inl ⟨"APT::Architecture=", by decide, _, rfl⟩)
    | exact Or.inr (Or.inl ⟨"APT::Architectures=", by decide, _, rfl⟩)
    | exact Or.inr (Or.inl ⟨"APT::Install-Recommends=", by decide, _, rfl⟩)
    | exact Or.inr (Or.inl ⟨"Dir::State::Status=", by decide, _, rfl⟩)
    | exact Or.inr (Or.inl ⟨"Dir::Log=", by decide, _, rfl⟩)
    | exact Or.inr (Or.inl ⟨"Dir::Bin::DPkg=", by decide, _, rfl⟩)
    | exact Or.inr (Or.inl ⟨"DPkg::Options::=--root=", by decide, _, rfl⟩)

/-- The flags whose presence the trust and docs toggles govern. -/
def aptSpecialFlags : List String := aptInsecureFlags ++ aptDocFlags

lemma specialFlags_take_ne :
    ∀ f ∈ aptSpecialFlags, ∀ c ∈ aptInterpHeads,
      f.data.take c.data.length ≠ c.data := by decide

lemma specialFlags_not_const : ∀ f ∈ aptSpecialFlags, f ∉ aptBaseConst := by decide

/-- None of the toggle-controlled flags ever occurs in the unconditional part
of the apt command line. -/
lemma specialFlag_not_mem_aptBase (w : World) (context : Context) (command : String)
    (f : String) (hf : f ∈ aptSpecialFlags) (hcmd : command ≠ f) :
    f ∉ aptBase w context command := by
  intro hmem
  rcases aptBase_mem_cases w context command f hmem with h | ⟨c, hc, t, ht⟩ | h
  · exact hcmd h.symm
  · exact append_ne_of_take_ne c f (specialFlags_take_ne f hf c hc) t ht.symm
  · exact specialFlags_not_const f hf h

lemma docFlags_count_docBlock : ∀ f ∈ aptDocFlags, List.count f aptDocBlock = 1 := by decide

lemma docFlags_count_insecureBlock :
    ∀ f ∈ aptDocFlags, List.count f aptInsecureBlock = 0 := by decide

lemma insecureFlags_count_insecureBlock :
    ∀ f ∈ aptInsecureFlags, List.count f aptInsecureBlock = 1 := by decide

lemma insecureFlags_count_docBlock :
    ∀ f ∈ aptInsecureFlags, List.count f aptDocBlock = 0 := by decide

/-- C4: for every build context, when documentation inclusion is disabled the
`apt_cmd` argument vector contains each of the five documented DPkg path
flags exactly once, and when documentation is enabled none of them appear.
The tool name `command` is assumed not to be one of the flag strings. -/
theorem apt_docs_toggle (w : World) (context : Context) (command : String)
    (hcmd : command ∉ aptDocFlags) :
    ∀ f ∈ aptDocFlags,
      List.count f (apt_cmd w context command)
        = if context.config.with_docs then 0 else 1 := by
  intro f hf
  have hs : f ∈ aptSpecialFlags := List.mem_append_right _ hf
  have hb : List.count f (aptBase w context command) = 0 :=
    List.count_eq_zero.mpr
      (specialFlag_not_mem_aptBase w context command f hs (fun h => hcmd (h.symm ▸ hf)))
  by_cases hkc : context.config.repository_key_check <;>
    by_cases hwd : context.config.with_docs <;>
      simp [apt_cmd, hkc, hwd, hb, List.count_append,
            docFlags_count_docBlock f hf, docFlags_count_insecureBlock f hf]

theorem apt_docs_toggle_witness :
    ("apt-get" ∉ aptDocFlags)
    ∧ ∀ f ∈ aptDocFlags,
        List.count f (apt_cmd worldDemo1 ctxDemo "apt-get")
          = if ctxDemo.config.with_docs then 0 else 1 :=
  ⟨by decide, apt_docs_toggle worldDemo1 ctxDemo "apt-get" (by decide)⟩

/-- C5: when repository signature verification is disabled the apt vector
contains each of the three insecure/unauthenticated-allow options exactly
once and the zypper vector contains `--no-gpg-checks`; when verification is
enabled the apt vector contains none of the three and the zypper vector
contains `--gpg-auto-import-keys`; the two zypper flags are mutually
exclusive, exactly one always present.  The tool name `command` is assumed
not to be one of the three option strings. -/
theorem trust_toggle (w : World) (context : Context) (command : String)
    (hcmd : command ∉ aptInsecureFlags) :
    (∀ f ∈ aptInsecureFlags,
       List.count f (apt_cmd w context command)
         = if context.config.repository_key_check then 0 else 1)
    ∧ ("--no-gpg-checks" ∈ zypper_cmd w context
         ↔ context.config.repository_key_check = false)
    ∧ ("--gpg-auto-import-keys" ∈ zypper_cmd w context
         ↔ context.config.repository_key_check = true) := by
  have h1 : ∀ x : String, "--installroot=" ++ x ≠ "--no-gpg-checks" :=
    append_ne_of_take_ne _ _ (by decide)
  have h2 : ∀ x : String, "--installroot=" ++ x ≠ "--gpg-auto-import-keys" :=
    append_ne_of_take_ne _ _ (by decide)
  refine ⟨?_, ?_, ?_⟩
  · intro f hf
    have hs : f ∈ aptSpecialFlags := List.mem_append_left _ hf
    have hb : List.count f (aptBase w context command) = 0 :=
      List.count_eq_zero.mpr
        (specialFlag_not_mem_aptBase w context command f hs (fun h => hcmd (h.symm ▸ hf)))
    by_cases hkc : context.config.repository_key_check <;>
      by_cases hwd : context.config.with_docs <;>
        simp [apt_cmd, hkc, hwd, hb, List.count_append,
              insecureFlags_count_insecureBlock f hf, insecureFlags_count_docBlock f hf]
  · by_cases hkc : context.config.repository_key_check <;>
      simp [zypper_cmd, hkc, (h1 context.root).symm]
  · by_cases hkc : context.config.repository_key_check <;>
      simp [zypper_cmd, hkc, (h2 context.root).symm]

theorem trust_toggle_witness :
    ("apt-get" ∉ aptInsecureFlags)
    ∧ ((∀ f ∈ aptInsecureFlags,
          List.count f (apt_cmd worldDemo1 ctxDemo "apt-get")
            = if ctxDemo.config.repository_key_check then 0 else 1)
       ∧ ("--no-gpg-checks" ∈ zypper_cmd worldDemo1 ctxDemo
            ↔ ctxDemo.config.repository_key_check = false)
       ∧ ("--gpg-auto-import-keys" ∈ zypper_cmd worldDemo1 ctxDemo
            ↔ ctxDemo.config.repository_key_check = true)) :=
  ⟨by decide, trust_toggle worldDemo1 ctxDemo "apt-get" (by decide)⟩

/-- C2 as stated is false: with identical context and arguments but a
different filesystem state (a different resolved location of the `dpkg`
binary), `apt_cmd` returns different argument vectors, because the source
consults `find_binary("dpkg", root=context.config.tools())`. -/
theorem apt_cmd_fs_dependent :
    apt_cmd worldDemo1 ctxDemo "apt-get" ≠ apt_cmd worldDemo2 ctxDemo "apt-get" := by
  decide

/-- C2 amended: both command builders are deterministic and write nothing;
`zypper_cmd` depends on no filesystem state at all, while `apt_cmd` depends
on the filesystem only through the resolved location of the `dpkg` binary:
two calls with the same context and arguments whose filesystem states agree
on that resolution return identical argument vectors. -/
theorem build_invocation_deterministic (w w' : World) (context : Context) (command : String)
    (h : w.findBinary "dpkg" context.config.tools
           = w'.findBinary "dpkg" context.config.tools) :
    apt_cmd w context command = apt_cmd w' context command
    ∧ zypper_cmd w context = zypper_cmd w' context := by
  constructor
  · unfold apt_cmd aptBase
    rw [h]
  · rfl

theorem build_invocation_deterministic_witness :
    (worldDemo1.findBinary "dpkg" ctxDemo.config.tools
       = worldDemo1.findBinary "dpkg" ctxDemo.config.tools)
    ∧ (apt_cmd worldDemo1 ctxDemo "apt-get" = apt_cmd worldDemo1 ctxDemo "apt-get"
       ∧ zypper_cmd worldDemo1 ctxDemo = zypper_cmd worldDemo1 ctxDemo) :=
  ⟨rfl, build_invocation_deterministic worldDemo1 worldDemo1 ctxDemo "apt-get" rfl⟩

/-- Modelled from the spec: the repository descriptor `RpmRepository` from
`mkosi.installer.rpm` (not under `src/`) - "identifier, source URL, list of
signing-key URLs, enabled flag", the four fields `zypper.py` reads. -/
structure RpmRepository where
  id : String
  url : String
  gpgurls : List String
  enabled : Bool

/-- The continuation padding `len("gpgkey=") * " "` (`zypper.py` line 56). -/
def gpgkeyPad : String := String.mk (List.replicate "gpgkey=".length ' ')

/-- The gpgkey lines of one repository block, mirroring the indexed loop
`for i, url in enumerate(repo.gpgurls)` of `zypper.py` lines 55-57: the
line for index 0 is headed `gpgkey=`, every later line is headed by the
padding. -/
def gpgkeyLinesFrom : Nat → List String → List String
  | _, [] => []
  | i, u :: us => ((if i = 0 then "gpgkey=" else gpgkeyPad) ++ u) :: gpgkeyLinesFrom (i + 1) us

/-- The gpgkey lines of a descriptor, from index 0. -/
def gpgkeyLineList (urls : List String) : List String := gpgkeyLinesFrom 0 urls

/-- One `[id]` block of the repo file (`zypper.py` lines 41-57), after
`textwrap.dedent`, followed by its gpgkey lines. -/
def repoBlock (repo : RpmRepository) : String :=
  "[" ++ repo.id ++ "]\nname=" ++ repo.id ++ "\n" ++ repo.url ++ "\ngpgcheck=1\nenabled="
    ++ (if repo.enabled then "1" else "0") ++ "\nautorefresh=1\nkeeppackages=1\n"
    ++ String.join ((gpgkeyLineList repo.gpgurls).map (fun l => l ++ "\n"))

/-- The whole `mkosi.repo` file: one block per descriptor, in order. -/
def repoFileContent (repos : List RpmRepository) : String :=
  String.join (repos.map repoBlock)

def zyppConfPath (context : Context) : String :=
  joinPath context.pkgmngr "etc/zypp/zypp.conf"

def mkosiRepoPath (context : Context) : String :=
  joinPath context.pkgmngr "etc/zypp/repos.d/mkosi.repo"

/-- The tuning block appended to `zypp.conf` (`zypper.py` lines 25-34), after
`textwrap.dedent`. -/
def zyppMainBlock (context : Context) : String :=
  "\n[main]\nrpm.install.excludedocs = " ++ yes_no (!context.config.with_docs)
    ++ "\nrepo.refresh.delay = " ++ toString (48 * 60) ++ "\n"

/-- `setup_zypper(context, repos)` from `zypper.py` lines 16-59: append the
tuning block to `zypp.conf`, then write the repo file only if absent.  The
trailing `setup_rpm(context)` call is an out-of-scope collaborator from
`mkosi.installer.rpm` and is not modelled. -/
def setup_zypper (context : Context) (repos : List RpmRepository) (fs : FS) : FS :=
  writeIfAbsent (appendFile fs (zyppConfPath context) (zyppMainBlock context))
    (mkosiRepoPath context) (repoFileContent repos)

def statusPath (context : Context) : String :=
  joinPath context.root "var/lib/dpkg/status"

def aptConfPath (context : Context) : String :=
  joinPath context.workspace "apt.conf"

def sourcesListPath (context : Context) : String :=
  joinPath context.pkgmngr "etc/apt/sources.list"

/-- The auxiliary config written to the workspace (`apt.py` lines 34-40),
after `textwrap.dedent`. -/
def aptConfContent : String := "Dir::Etc \"etc/apt\";\n"

/-- The `sources.list` content: one descriptor string per line
(`apt.py` lines 44-46). -/
def sourcesListContent (repos : List String) : String :=
  String.join (repos.map (fun r => r ++ "\n"))

/-- `setup_apt(context, repos)` from `apt.py` lines 14-46: touch the dpkg
status file (create empty only if absent), write the auxiliary `apt.conf`
only if absent, write `sources.list` only if absent.  The `mkdir` calls and
the scoped `umask` change create no file content and are not modelled. -/
def setup_apt (context : Context) (repos : List String) (fs : FS) : FS :=
  writeIfAbsent
    (writeIfAbsent (writeIfAbsent fs (statusPath context) "")
      (aptConfPath context) aptConfContent)
    (sourcesListPath context) (sourcesListContent repos)

lemma wia_isSome_self (fs : FS) (p c : String) :
    ((writeIfAbsent fs p c) p).isSome = true := by
  by_cases h : (fs p).isSome
  · simp [writeIfAbsent, h]
  · simp [writeIfAbsent, h, FS.write]

lemma wia_isSome_mono (fs : FS) (p c q : String) (h : (fs q).isSome = true) :
    ((writeIfAbsent fs p c) q).isSome = true := by
  by_cases hp : (fs p).isSome
  · simpa [writeIfAbsent, hp]
  · by_cases hq : q = p
    · subst hq; simp [writeIfAbsent, hp, FS.write]
    · simp [writeIfAbsent, hp, FS.write, hq, h]

lemma wia_of_isSome (fs : FS) (p c : String) (h : (fs p).isSome = true) :
    writeIfAbsent fs p c = fs := by
  simp [writeIfAbsent, h]

lemma wia_other (fs : FS) (p c q : String) (h : q ≠ p) :
    (writeIfAbsent fs p c) q = fs q := by
  by_cases hp : (fs p).isSome
  · simp [writeIfAbsent, hp]
  · simp [writeIfAbsent, hp, FS.write, h]

lemma appendFile_self (fs : FS) (p c : String) :
    (appendFile fs p c) p = some (((fs p).getD "") ++ c) := by
  simp [appendFile, FS.write]

lemma appendFile_other (fs : FS) (p c q : String) (h : q ≠ p) :
    (appendFile fs p c) q = fs q := by
  simp [appendFile, FS.write, h]

/-- After `setup_apt`, the three files it is responsible for exist. -/
lemma setup_apt_isSome (context : Context) (repos : List String) (fs : FS) :
    ((setup_apt context repos fs) (statusPath context)).isSome = true
    ∧ ((setup_apt context repos fs) (aptConfPath context)).isSome = true
    ∧ ((setup_apt context repos fs) (sourcesListPath context)).isSome = true := by
  unfold setup_apt
  refine ⟨?_, ?_, ?_⟩
  · exact wia_isSome_mono _ _ _ _ (wia_isSome_mono _ _ _ _ (wia_isSome_self _ _ _))
  · exact wia_isSome_mono _ _ _ _ (wia_isSome_self _ _ _)
  · exact wia_isSome_self _ _ _

/-- A second `setup_apt` call with identical inputs changes nothing at all. -/
lemma setup_apt_idem (context : Context) (repos : List String) (fs : FS) :
    setup_apt context repos (setup_apt context repos fs) = setup_apt context repos fs := by
  obtain ⟨h1, h2, h3⟩ := setup_apt_isSome context repos fs
  set F := setup_apt context repos fs with hF
  show setup_apt context repos F = F
  unfold setup_apt
  rw [wia_of_isSome _ _ _ h1, wia_of_isSome _ _ _ h2, wia_of_isSome _ _ _ h3]

lemma zyppPaths_ne (context : Context) : zyppConfPath context ≠ mkosiRepoPath context := by
  unfold zyppConfPath mkosiRepoPath joinPath
  exact append_left_ne (context.pkgmngr ++ "/") _ _ (by decide)

/-- C7: setup is idempotent over configuration files: a second `setup` call
with identical inputs leaves the Debian-family `sources.list` and auxiliary
`apt.conf`, and the RPM-family `mkosi.repo` file, byte-identical to their
state after the first call (the intentionally-appended `zypp.conf` tuning
block is excluded). -/
theorem setup_idempotent (context : Context) (repos : List String)
    (rrepos : List RpmRepository) (fs gs : FS) :
    setup_apt context repos (setup_apt context repos fs) (aptConfPath context)
      = setup_apt context repos fs (aptConfPath context)
    ∧ setup_apt context repos (setup_apt context repos fs) (sourcesListPath context)
      = setup_apt context repos fs (sourcesListPath context)
    ∧ setup_zypper context rrepos (setup_zypper context rrepos gs) (mkosiRepoPath context)
      = setup_zypper context rrepos gs (mkosiRepoPath context) := by
  refine ⟨by rw [setup_apt_idem], by rw [setup_apt_idem], ?_⟩
  set G := setup_zypper context rrepos gs with hG
  have hsome : (G (mkosiRepoPath context)).isSome = true := by
    rw [hG]; unfold setup_zypper; exact wia_isSome_self _ _ _
  show setup_zypper context rrepos G (mkosiRepoPath context) = G (mkosiRepoPath context)
  unfold setup_zypper
  have h1 : (appendFile G (zyppConfPath context) (zyppMainBlock context)) (mkosiRepoPath context)
      = G (mkosiRepoPath context) :=
    appendFile_other _ _ _ _ (Ne.symm (zyppPaths_ne context))
  have h2 : ((appendFile G (zyppConfPath context) (zyppMainBlock context))
      (mkosiRepoPath context)).isSome = true := by rw [h1]; exact hsome
  rw [wia_of_isSome _ _ _ h2, h1]

/-- C8: `setup_zypper` appends and never overwrites: the prior content of
`zypp.conf` (empty when the file was absent) is an unchanged left part of
the new content, and the appended `[main]` block sets
`rpm.install.excludedocs` from the documentation policy and a refresh delay
of 2880 minutes, which is 48 hours. -/
theorem zypper_conf_appended (context : Context) (repos : List RpmRepository) (fs : FS) :
    setup_zypper context repos fs (zyppConfPath context)
      = some (((fs (zyppConfPath context)).getD "") ++ zyppMainBlock context)
    ∧ zyppMainBlock context
      = "\n[main]\nrpm.install.excludedocs = " ++ yes_no (!context.config.with_docs)
          ++ "\nrepo.refresh.delay = 2880\n" := by
  constructor
  · unfold setup_zypper
    rw [wia_other _ _ _ _ (zyppPaths_ne context), appendFile_self]
  · unfold zyppMainBlock
    cases context.config.with_docs <;> decide

/-- From any nonzero starting index every line is headed by the padding. -/
lemma gpgkeyLinesFrom_succ (us : List String) :
    ∀ i : Nat, gpgkeyLinesFrom (i + 1) us = us.map (fun v => gpgkeyPad ++ v) := by
  induction us with
  | nil => intro i; rfl
  | cons u us ih =>
      intro i
      simp [gpgkeyLinesFrom, Nat.succ_ne_zero, ih (i + 1)]

/-- C3: a descriptor with N signing-key URLs (N at least 1, here `u :: us`)
yields exactly N gpgkey lines: the first is `gpgkey=` followed by the first
URL, each later line is the padding of width `len("gpgkey=")` - seven
spaces - followed by only its URL. -/
theorem gpg_continuation (u : String) (us : List String) :
    (gpgkeyLineList (u :: us)).length = (u :: us).length
    ∧ (gpgkeyLineList (u :: us)).head? = some ("gpgkey=" ++ u)
    ∧ (gpgkeyLineList (u :: us)).tail = us.map (fun v => gpgkeyPad ++ v)
    ∧ gpgkeyPad = "       " := by
  refine ⟨?_, ?_, ?_, by decide⟩
  · simp [gpgkeyLineList, gpgkeyLinesFrom, gpgkeyLinesFrom_succ us 0]
  · simp [gpgkeyLineList, gpgkeyLinesFrom]
  · simp [gpgkeyLineList, gpgkeyLinesFrom, gpgkeyLinesFrom_succ us 0]

/-- The RPM-family descriptor of the end-to-end example. -/
def repoDemo : RpmRepository :=
  { id := "base"
    url := "baseurl=http://example/repo"
    gpgurls := ["http://example/key1", "http://example/key2"]
    enabled := true }

/-- C9: on a fresh context, `setup_zypper` with the single descriptor
id=base, baseurl line, two gpg URLs, enabled, writes a repo file whose one
stanza carries name, baseurl, gpgcheck=1, enabled=1, autorefresh=1,
keeppackages=1, the first gpg URL after `gpgkey=` and the second on a
continuation line padded to align under the first. -/
theorem setup_zypper_end_to_end :
    setup_zypper ctxDemo [repoDemo] fsEmpty (mkosiRepoPath ctxDemo)
      = some ("[base]\nname=base\nbaseurl=http://example/repo\ngpgcheck=1\nenabled=1\nautorefresh=1\nkeeppackages=1\ngpgkey=http://example/key1\n       http://example/key2\n") := by
  decide

def mkosiSourcesPath (context : Context) : String :=
  joinPath context.pkgmngr "etc/apt/sources.list.d/mkosi-packages.sources"

/-- The exact content written by `createrepo_apt` (`apt.py` lines 137-146):
the f-string is NOT passed through `textwrap.dedent` (its sibling
`createrepo_zypper` does dedent), so the eight-space indentation of the
source lines and the indent-only final line are part of the file. -/
def mkosiPackagesSourcesContent (context : Context) : String :=
  "        Enabled: yes\n        Types: deb\n        URIs: file:///work/packages\n        Suites: "
    ++ context.config.release
    ++ "\n        Components: main\n        Trusted: yes\n        "

/-- `createrepo_apt(context)` from `apt.py` lines 131-146: capture the
output of the external `dpkg-scanpackages` run (the parameter
`packagesIndex`) into the `Packages` index file, then write the repository
definition file. -/
def createrepo_apt (context : Context) (packagesIndex : String) (fs : FS) : FS :=
  FS.write (FS.write fs (joinPath context.packages "Packages") packagesIndex)
    (mkosiSourcesPath context) (mkosiPackagesSourcesContent context)

/-- C1 fails on the code: `createrepo_apt` writes its f-string without
`textwrap.dedent`, so every line of `mkosi-packages.sources` begins with
eight spaces (shown here: the first eight characters of the written file
are spaces) and the file differs from the claimed column-zero six-line
form; the first field line is `        Enabled: yes`, not `Enabled: yes`. -/
theorem createrepoApt_sources_indented :
    createrepo_apt ctxDemo "" fsEmpty (mkosiSourcesPath ctxDemo)
      = some (mkosiPackagesSourcesContent ctxDemo)
    ∧ (mkosiPackagesSourcesContent ctxDemo).data.take 8 = List.replicate 8 ' '
    ∧ mkosiPackagesSourcesContent ctxDemo
        ≠ "Enabled: yes\nTypes: deb\nURIs: file:///work/packages\nSuites: bookworm\nComponents: main\nTrusted: yes\n" := by
  refine ⟨by decide, by decide, by decide⟩

/-- Modelled from the spec: `sort_packages` from `mkosi.util` (not under
`src/`) - "the set of package names requested for an operation; must be
deduplicated and sorted before becoming part of any command line, to
guarantee reproducible invocations independent of input ordering". -/
def sort_packages (packages : List String) : List String :=
  (packages.dedup).insertionSort (· ≤ ·)

/-- The argument vector run by `invoke_apt` (`apt.py` line 114):
`apt_cmd(context, command) + [operation, *sort_packages(packages)]`. -/
def invoke_apt_argv (w : World) (context : Context) (command operation : String)
    (packages : List String) : List String :=
  apt_cmd w context command ++ [operation] ++ sort_packages packages

/-- The argument vector run by `invoke_zypper` (`zypper.py` line 84):
`zypper_cmd(context) + [verb, *options, *sort_packages(packages)]`. -/
def invoke_zypper_argv (w : World) (context : Context) (verb : String)
    (packages options : List String) : List String :=
  zypper_cmd w context ++ [verb] ++ options ++ sort_packages packages

/-- Sorting after deduplication is invariant under permutation of the input. -/
lemma sort_packages_perm_eq {p₁ p₂ : List String} (h : p₁.Perm p₂) :
    sort_packages p₁ = sort_packages p₂ :=
  List.eq_of_perm_of_sorted
    ((List.perm_insertionSort _ _).trans ((h.dedup).trans
      (List.perm_insertionSort _ _).symm))
    (List.sorted_insertionSort _ _) (List.sorted_insertionSort _ _)

/-- C6: for every permutation of an input package list, the generated apt
and zypper command lines are identical, and the package portion is
deduplicated and sorted. -/
theorem invoke_packages_sorted (w : World) (context : Context)
    (command operation verb : String) (options p₁ p₂ : List String) (h : p₁.Perm p₂) :
    invoke_apt_argv w context command operation p₁
      = invoke_apt_argv w context command operation p₂
    ∧ invoke_zypper_argv w context verb p₁ options
      = invoke_zypper_argv w context verb p₂ options
    ∧ (sort_packages p₁).Sorted (· ≤ ·)
    ∧ (sort_packages p₁).Nodup := by
  refine ⟨?_, ?_, List.sorted_insertionSort _ _, ?_⟩
  · unfold invoke_apt_argv
    rw [sort_packages_perm_eq h]
  · unfold invoke_zypper_argv
    rw [sort_packages_perm_eq h]
  · exact ((List.perm_insertionSort (· ≤ ·) p₁.dedup).symm).nodup (List.nodup_dedup p₁)

theorem invoke_packages_sorted_witness :
    (["b", "a"].Perm ["a", "b"])
    ∧ (invoke_apt_argv worldDemo1 ctxDemo "apt-get" "install" ["b", "a"]
         = invoke_apt_argv worldDemo1 ctxDemo "apt-get" "install" ["a", "b"]
       ∧ invoke_zypper_argv worldDemo1 ctxDemo "install" ["b", "a"] []
         = invoke_zypper_argv worldDemo1 ctxDemo "install" ["a", "b"] []
       ∧ (sort_packages ["b", "a"]).Sorted (· ≤ ·)
       ∧ (sort_packages ["b", "a"]).Nodup) :=
  ⟨List.Perm.swap "a" "b" [],
   invoke_packages_sorted worldDemo1 ctxDemo "apt-get" "install" "install" []
     ["b", "a"] ["a", "b"] (List.Perm.swap "a" "b" [])⟩

/-- Events visible in the execution of `invoke_zypper`. -/
inductive ZEvent where
  | runZypper (argv : List String)
  | fixupRpmdb
deriving DecidableEq

/-- `invoke_zypper(context, verb, packages, options)` from `zypper.py`
lines 75-99, as a trace of events plus an outcome: the sandboxed `run` of
the zypper argument vector happens first and its outcome is the parameter
`runExit` (the external process's exit).  On success,
`fixup_rpmdb_location(context)` - a collaborator from
`mkosi.installer.rpm` - runs afterwards; on failure the raised error
propagates and the fixup step is never reached. -/
def invoke_zypper (context : Context) (verb : String)
    (packages options : List String) (w : World) (runExit : Except String Unit) :
    List ZEvent × Except String Unit :=
  match runExit with
  | .ok _ =>
      ([ZEvent.runZypper (invoke_zypper_argv w context verb packages options),
        ZEvent.fixupRpmdb], .ok ())
  | .error e =>
      ([ZEvent.runZypper (invoke_zypper_argv w context verb packages options)],
       .error e)

/-- C10: when the external zypper process fails, the rpm-database-location
fixup is not executed and the error propagates to the caller; when the
process succeeds, the fixup runs, after the zypper run. -/
theorem fixup_only_on_success (w : World) (context : Context) (verb : String)
    (packages options : List String) (runExit : Except String Unit) :
    (∀ e, runExit = Except.error e →
       ZEvent.fixupRpmdb ∉ (invoke_zypper context verb packages options w runExit).1
       ∧ (invoke_zypper context verb packages options w runExit).2 = Except.error e)
    ∧ (runExit = Except.ok () →
       (invoke_zypper context verb packages options w runExit).1
         = [ZEvent.runZypper (invoke_zypper_argv w context verb packages options),
            ZEvent.fixupRpmdb]) := by
  constructor
  · rintro e rfl
    exact ⟨by simp [invoke_zypper], rfl⟩
  · rintro rfl
    rfl

theorem fixup_only_on_success_witness :
    ((ZEvent.fixupRpmdb ∉ (invoke_zypper ctxDemo "install" ["pkg"] [] worldDemo1
         (Except.error "zypper failed")).1
      ∧ (invoke_zypper ctxDemo "install" ["pkg"] [] worldDemo1
          (Except.error "zypper failed")).2 = Except.error "zypper failed")
     ∧ (invoke_zypper ctxDemo "install" ["pkg"] [] worldDemo1 (Except.ok ())).1
         = [ZEvent.runZypper (invoke_zypper_argv worldDemo1 ctxDemo "install" ["pkg"] []),
            ZEvent.fixupRpmdb]) :=
  ⟨(fixup_only_on_success worldDemo1 ctxDemo "install" ["pkg"] []
      (Except.error "zypper failed")).1 "zypper failed" rfl,
   (fixup_only_on_success worldDemo1 ctxDemo "install" ["pkg"] [] (Except.ok ())).2 rfl⟩
